import Mathlib

/-!
Verification development for the `clip` CLI command of keepassxc
(`src/cli/Clip.cpp`, `Clip::executeWithDatabase`).

The command is embedded shallowly: external collaborators (database entry
lookup, attribute matching, the clipboard primitive) are parameters of the
model, and the command itself is a pure function from its parsed options and
those collaborators to a result record collecting the exit code, the messages
written to the error stream, the messages written to the normal output stream,
and the sequence of clipboard writes.
-/

namespace Clip

/-- An entry of the credential store, as consumed by the command:
an attribute mapping (key→value, keys unique, `QMap`-like association list),
a TOTP capability flag (`entry->hasTotp()`) and the current TOTP code
(`entry->totp()`). -/
structure Entry where
  attributes : List (String × String)
  hasTotp : Bool
  totp : String
  deriving Repr, DecidableEq

/-- The parsed invocation, as `Clip::executeWithDatabase` receives it from the
command-line parser: the entry path (`args.at(1)`), the raw timeout string
(`args.at(2)` when present, otherwise the empty string, matching the
default-constructed `QString timeout`), the global quiet flag
(`parser->isSet(Command::QuietOption)`), the `--attribute` option (`none` when
unset; `parser->value` then returns the declared default `"password"`), and
the `--totp` flag (`parser->isSet(TotpOption)`). -/
structure ClipInput where
  entryPath : String
  timeout : String
  quiet : Bool
  attrOpt : Option String
  totpSet : Bool
  deriving Repr

/-- The external collaborators consumed by the command:
`rootGroup()->findEntryByPath`, `Utils::findAttributes` (returns the ordered
list of matching attribute keys), and the exit code that `Utils::clipText`
reports for a given string (the model records every `clipText` argument as a
clipboard write; the collaborator decides the exit code). -/
structure Collab where
  findEntryByPath : String → Option Entry
  findAttributes : List (String × String) → String → List String
  clipExit : String → Int

/-- One message written to a text stream, one constructor per `QObject::tr`
format string of `Clip::executeWithDatabase`, carrying the interpolated
arguments (`ambiguousAttribute` carries the matched key list in the order it
is rendered by `QLocale().createSeparatedList`; `eraseLine` is the
`'\r' + spaces + '\r'` sequence whose pad width is the previous line's
length; `countdownLine` carries the remaining-seconds count it displays). -/
inductive Msg where
  | invalidTimeout (raw : String)
  | entryNotFound (path : String)
  | conflictingOptions
  | noTotpConfigured (path : String)
  | ambiguousAttribute (attr : String) (keys : List String)
  | attributeNotFound (attr : String)
  | copiedConfirmation (attr : String)
  | eraseLine (padWidth : Nat)
  | countdownLine (seconds : Nat)
  | clipboardCleared
  deriving DecidableEq, Repr

/-- The observable outcome of one invocation: the returned exit code, the
messages written to `errorTextStream` (always STDERR), the messages written to
`outputTextStream` (redirected to DEVNULL under quiet, see `printedOut`), and
the arguments of the `Utils::clipText` calls in order. -/
structure ClipResult where
  exitCode : Int
  errWrites : List Msg
  outWrites : List Msg
  clipWrites : List String
  deriving DecidableEq, Repr

/-- `EXIT_SUCCESS` from `<cstdlib>`. -/
def EXIT_SUCCESS : Int := 0

/-- `EXIT_FAILURE` from `<cstdlib>`. -/
def EXIT_FAILURE : Int := 1

/-- Value of a decimal digit string, `none` if any character is not a digit. -/
def decDigitsValAux : List Char → Nat → Option Nat
  | [], acc => some acc
  | c :: cs, acc =>
      if c.isDigit then decDigitsValAux cs (10 * acc + (c.toNat - 48)) else none

/-- Value of a non-empty all-digit string, `none` otherwise. -/
def decDigitsVal? (cs : List Char) : Option Nat :=
  match cs with
  | [] => none
  | _ :: _ => decDigitsValAux cs 0

/-- Parse an optional sign followed by one or more decimal digits, consuming
the entire string; `none` on any other input. -/
def parseDecInt? (s : String) : Option Int :=
  match s.data with
  | '-' :: rest => (decDigitsVal? rest).map (fun n => -(n : Int))
  | '+' :: rest => (decDigitsVal? rest).map (fun n => (n : Int))
  | cs => (decDigitsVal? cs).map (fun n => (n : Int))

/-- Modelled from the spec: `QString::toInt` (a Qt collaborator whose source is
not part of this repository), base 10, C locale: a string that is entirely an
optionally-signed decimal integer whose value fits the signed 32-bit `int`
range converts to that value; any other input (invalid characters, empty,
out of range) yields 0. -/
def qstringToInt (s : String) : Int :=
  match parseDecInt? s with
  | some v => if -(2 ^ 31) ≤ v ∧ v ≤ 2 ^ 31 - 1 then v else 0
  | none => 0

/-- Whether a string is entirely a valid decimal integer representation whose
value fits in a signed 32-bit `int` (the inputs on which `qstringToInt`
returns the represented value rather than 0). -/
def isValidInt32Rep (s : String) : Bool :=
  match parseDecInt? s with
  | some v => decide (-(2 ^ 31) ≤ v ∧ v ≤ 2 ^ 31 - 1)
  | none => false

/-- The rendered countdown status line,
`tr("Clearing the clipboard in %1 second(s)...").arg(n)`. -/
def countdownText (n : Nat) : String :=
  "Clearing the clipboard in " ++ toString n ++ " second(s)..."

/-- The countdown loop (`while (timeoutSeconds > 0)`): at each tick it erases
the previous line (pad width = previous `lastLine` length), prints the status
line for the current remaining-seconds count, sleeps, decrements. Returns the
emitted messages and the final `lastLine`. -/
def countdownLoop : Nat → String → List Msg × String
  | 0, lastLine => ([], lastLine)
  | Nat.succ n, lastLine =>
      let line := countdownText (n + 1)
      let rest := countdownLoop n line
      (Msg.eraseLine lastLine.length :: Msg.countdownLine (n + 1) :: rest.1, rest.2)

/-- `QMap::value`: the stored value for a key, or a default-constructed
(empty) string when absent. -/
def attrValue (m : List (String × String)) (k : String) : String :=
  (m.lookup k).getD ""

/-- The clipboard phase of `Clip::executeWithDatabase` (lines 115–138): write
`value` via `Utils::clipText`; on failure return that exit code with no
further action; on success print the copy confirmation, return immediately
when `timeoutSeconds` is 0, otherwise run the countdown, clear the clipboard
with `Utils::clipText("")` (its exit code is ignored), erase the last line,
print the cleared confirmation and return `EXIT_SUCCESS`. -/
def clipPhase (c : Collab) (selectedAttribute value : String)
    (timeoutSeconds : Int) : ClipResult :=
  let exitCode := c.clipExit value
  if exitCode ≠ EXIT_SUCCESS then
    { exitCode := exitCode, errWrites := [], outWrites := [], clipWrites := [value] }
  else if timeoutSeconds = 0 then
    { exitCode := exitCode, errWrites := [],
      outWrites := [Msg.copiedConfirmation selectedAttribute],
      clipWrites := [value] }
  else
    let cd := countdownLoop timeoutSeconds.toNat ""
    { exitCode := EXIT_SUCCESS, errWrites := [],
      outWrites := Msg.copiedConfirmation selectedAttribute ::
        (cd.1 ++ [Msg.eraseLine cd.2.length, Msg.clipboardCleared]),
      clipWrites := [value, ""] }

/-- The local `int timeoutSeconds` of `Clip::executeWithDatabase`: 0 when the
timeout string is empty, otherwise its `QString::toInt` value (only reached
when that value is positive, the validation having rejected the rest). -/
def timeoutSecondsOf (inp : ClipInput) : Int :=
  if inp.timeout ≠ "" then qstringToInt inp.timeout else 0

/-- `Clip::executeWithDatabase` (lines 54–139), with the collaborators of
`Collab` injected: validate the timeout string, look up the entry, reject
conflicting options, resolve TOTP or attribute, then run `clipPhase`. -/
def clipExecute (c : Collab) (inp : ClipInput) : ClipResult :=
  if inp.timeout ≠ "" ∧ qstringToInt inp.timeout ≤ 0 then
    { exitCode := EXIT_FAILURE, errWrites := [Msg.invalidTimeout inp.timeout],
      outWrites := [], clipWrites := [] }
  else
    match c.findEntryByPath inp.entryPath with
    | none =>
        { exitCode := EXIT_FAILURE, errWrites := [Msg.entryNotFound inp.entryPath],
          outWrites := [], clipWrites := [] }
    | some entry =>
        if inp.attrOpt.isSome = true ∧ inp.totpSet = true then
          { exitCode := EXIT_FAILURE, errWrites := [Msg.conflictingOptions],
            outWrites := [], clipWrites := [] }
        else
          let selectedAttribute := inp.attrOpt.getD "password"
          if inp.totpSet = true ∨ selectedAttribute = "totp" then
            if entry.hasTotp then
              clipPhase c selectedAttribute entry.totp (timeoutSecondsOf inp)
            else
              { exitCode := EXIT_FAILURE,
                errWrites := [Msg.noTotpConfigured inp.entryPath],
                outWrites := [], clipWrites := [] }
          else
            let attrs := c.findAttributes entry.attributes selectedAttribute
            if attrs.length > 1 then
              { exitCode := EXIT_FAILURE,
                errWrites := [Msg.ambiguousAttribute selectedAttribute attrs],
                outWrites := [], clipWrites := [] }
            else
              match attrs with
              | [k] => clipPhase c k (attrValue entry.attributes k) (timeoutSecondsOf inp)
              | _ =>
                  { exitCode := EXIT_FAILURE, errWrites := [],
                    outWrites := [Msg.attributeNotFound selectedAttribute],
                    clipWrites := [] }

/-- What actually reaches the terminal on the normal output stream: the
stream is opened on DEVNULL when the quiet flag is set
(`parser->isSet(Command::QuietOption) ? Utils::DEVNULL : Utils::STDOUT`),
so under quiet none of its writes are printed. -/
def printedOut (quiet : Bool) (r : ClipResult) : List Msg :=
  if quiet then [] else r.outWrites

/-- The remaining-seconds counts of the countdown lines among a message list,
in emission order. -/
def countdownNums (msgs : List Msg) : List Nat :=
  msgs.filterMap (fun m =>
    match m with
    | Msg.countdownLine n => some n
    | _ => none)

/-- The list `[n, n-1, ..., 1]`. -/
def descList : Nat → List Nat
  | 0 => []
  | Nat.succ n => (n + 1) :: descList n

/-! ### Concrete fixtures used to instantiate the theorems -/

/-- A concrete entry: two attributes and a configured TOTP. -/
def demoEntry : Entry :=
  { attributes := [("password", "secret123"), ("user", "bob")],
    hasTotp := true, totp := "424242" }

/-- A concrete entry without TOTP. -/
def demoEntryNoTotp : Entry :=
  { attributes := [("password", "secret123")], hasTotp := false, totp := "" }

/-- Concrete collaborators: one entry at path `Root/Email`, exact-match
attribute search, clipboard writes always succeed. -/
def demoCollab : Collab :=
  { findEntryByPath := fun p => if p = "Root/Email" then some demoEntry else none,
    findAttributes := fun m q => (m.map Prod.fst).filter (fun k => k = q),
    clipExit := fun _ => 0 }

/-- Concrete collaborators: one entry without TOTP at path `Root/Plain`. -/
def demoCollabNoTotp : Collab :=
  { findEntryByPath := fun p => if p = "Root/Plain" then some demoEntryNoTotp else none,
    findAttributes := fun m q => (m.map Prod.fst).filter (fun k => k = q),
    clipExit := fun _ => 0 }

/-- Concrete collaborators whose clipboard write always fails with code 9. -/
def demoCollabClipFail : Collab :=
  { findEntryByPath := fun p => if p = "Root/Email" then some demoEntry else none,
    findAttributes := fun m q => (m.map Prod.fst).filter (fun k => k = q),
    clipExit := fun _ => 9 }

/-- Concrete collaborators whose attribute search returns two candidates for
the query `"pa"` (a fuzzy matcher), one candidate for `"user"`, none
otherwise. -/
def demoCollabFuzzy : Collab :=
  { findEntryByPath := fun p => if p = "Root/Email" then some demoEntry else none,
    findAttributes := fun _ q =>
      if q = "pa" then ["password", "passphrase"]
      else if q = "user" then ["user"] else [],
    clipExit := fun _ => 0 }

/-! ### Helper lemmas -/

/-- The countdown loop emits exactly the counts `n, n-1, …, 1`. -/
theorem countdownNums_countdownLoop (n : Nat) :
    ∀ s, countdownNums (countdownLoop n s).1 = descList n := by
  induction n with
  | zero => intro s; rfl
  | succ n ih =>
      intro s
      simp only [countdownLoop, countdownNums, List.filterMap_cons, descList]
      exact congrArg _ (ih _)

@[simp]
theorem countdownNums_nil : countdownNums [] = [] := rfl

@[simp]
theorem countdownNums_cons_copied (a : String) (l : List Msg) :
    countdownNums (Msg.copiedConfirmation a :: l) = countdownNums l := rfl

@[simp]
theorem countdownNums_cons_erase (n : Nat) (l : List Msg) :
    countdownNums (Msg.eraseLine n :: l) = countdownNums l := rfl

@[simp]
theorem countdownNums_cons_countdown (n : Nat) (l : List Msg) :
    countdownNums (Msg.countdownLine n :: l) = n :: countdownNums l := rfl

@[simp]
theorem countdownNums_cons_cleared (l : List Msg) :
    countdownNums (Msg.clipboardCleared :: l) = countdownNums l := rfl

@[simp]
theorem countdownNums_cons_notFound (a : String) (l : List Msg) :
    countdownNums (Msg.attributeNotFound a :: l) = countdownNums l := rfl

@[simp]
theorem countdownNums_append (l₁ l₂ : List Msg) :
    countdownNums (l₁ ++ l₂) = countdownNums l₁ ++ countdownNums l₂ :=
  List.filterMap_append l₁ l₂ _

/-- The first clipboard write of the clipboard phase is always the resolved
value. -/
theorem clipPhase_head (c : Collab) (a v : String) (N : Int) :
    (clipPhase c a v N).clipWrites.head? = some v := by
  unfold clipPhase
  dsimp only
  repeat' split
  all_goals rfl

/-- Every run either ends in the clipboard phase on some resolved attribute
and value, or fails with `EXIT_FAILURE` having touched the clipboard not at
all. -/
theorem clipExecute_shape (c : Collab) (inp : ClipInput) :
    (∃ a v, clipExecute c inp = clipPhase c a v (timeoutSecondsOf inp)) ∨
    ((clipExecute c inp).exitCode = EXIT_FAILURE ∧
      (clipExecute c inp).clipWrites = [] ∧
      ((clipExecute c inp).outWrites = [] ∨
        ∃ a, (clipExecute c inp).outWrites = [Msg.attributeNotFound a])) := by
  unfold clipExecute
  dsimp only
  repeat' split
  all_goals first
    | exact Or.inr ⟨rfl, rfl, Or.inl rfl⟩
    | exact Or.inr ⟨rfl, rfl, Or.inr ⟨_, rfl⟩⟩
    | exact Or.inl ⟨_, _, rfl⟩

/-- The clipboard phase after a successful write with a positive timeout:
countdown, clearing write, cleared confirmation. -/
theorem clipPhase_pos (c : Collab) (a v : String) (N : Int)
    (h0 : c.clipExit v = EXIT_SUCCESS) (hN : N ≠ 0) :
    clipPhase c a v N =
      { exitCode := EXIT_SUCCESS, errWrites := [],
        outWrites := Msg.copiedConfirmation a ::
          ((countdownLoop N.toNat "").1 ++
            [Msg.eraseLine (countdownLoop N.toNat "").2.length, Msg.clipboardCleared]),
        clipWrites := [v, ""] } := by
  unfold clipPhase
  simp [h0, hN]

/-- The clipboard phase after a successful write with no timeout: the copy
confirmation alone, a single clipboard write, immediate success. -/
theorem clipPhase_zero (c : Collab) (a v : String)
    (h0 : c.clipExit v = EXIT_SUCCESS) :
    clipPhase c a v 0 =
      { exitCode := EXIT_SUCCESS, errWrites := [],
        outWrites := [Msg.copiedConfirmation a], clipWrites := [v] } := by
  unfold clipPhase
  simp [h0, EXIT_SUCCESS]

/-- The clipboard phase after a failed write: the collaborator's exit code is
returned unchanged, nothing further is written anywhere. -/
theorem clipPhase_fail (c : Collab) (a v : String) (N : Int)
    (h0 : c.clipExit v ≠ EXIT_SUCCESS) :
    clipPhase c a v N =
      { exitCode := c.clipExit v, errWrites := [], outWrites := [],
        clipWrites := [v] } := by
  unfold clipPhase
  simp [h0]

/-- Any run with a positive parsed timeout that returns `EXIT_SUCCESS` ended
in a full countdown: its normal output ends with the cleared confirmation,
the messages before it carry exactly the counts `N…1`, and its last
clipboard write is the empty string. -/
theorem clipExecute_success_countdown (c : Collab) (inp : ClipInput) (N : Int)
    (ht : inp.timeout ≠ "") (hN : qstringToInt inp.timeout = N) (hpos : 0 < N)
    (hs : (clipExecute c inp).exitCode = EXIT_SUCCESS) :
    ∃ pre, (clipExecute c inp).outWrites = pre ++ [Msg.clipboardCleared] ∧
      countdownNums pre = descList N.toNat ∧
      (clipExecute c inp).clipWrites.getLast? = some "" := by
  have hts : timeoutSecondsOf inp = N := by simp [timeoutSecondsOf, ht, hN]
  rcases clipExecute_shape c inp with ⟨a, v, heq⟩ | ⟨hf, _, _⟩
  · rw [hts] at heq
    by_cases h0 : c.clipExit v = EXIT_SUCCESS
    · have hNe : N ≠ 0 := by omega
      rw [heq, clipPhase_pos c a v N h0 hNe]
      refine ⟨Msg.copiedConfirmation a ::
        ((countdownLoop N.toNat "").1 ++
          [Msg.eraseLine (countdownLoop N.toNat "").2.length]), ?_, ?_, ?_⟩
      · simp
      · simp [countdownNums_countdownLoop]
      · rfl
    · rw [heq, clipPhase_fail c a v N h0] at hs
      exact absurd hs h0
  · rw [hf] at hs
    simp [EXIT_FAILURE, EXIT_SUCCESS] at hs

/-- The countdown loop emits no copy confirmation. -/
theorem countdownLoop_no_copied (n : Nat) :
    ∀ s a, Msg.copiedConfirmation a ∉ (countdownLoop n s).1 := by
  induction n with
  | zero => intro s a h; simp [countdownLoop] at h
  | succ n ih =>
      intro s a h
      simp only [countdownLoop, List.mem_cons] at h
      rcases h with h | h | h
      · exact Msg.noConfusion h
      · exact Msg.noConfusion h
      · exact ih _ a h

/-- A run whose timeout is valid, whose entry resolves, and whose options do
not request TOTP (flag unset, selected attribute not `"totp"`) proceeds to
attribute matching on the selected attribute. -/
theorem clipExecute_attrBranch (c : Collab) (inp : ClipInput) (entry : Entry)
    (htime : ¬(inp.timeout ≠ "" ∧ qstringToInt inp.timeout ≤ 0))
    (hfind : c.findEntryByPath inp.entryPath = some entry)
    (htotp : inp.totpSet = false)
    (hq : inp.attrOpt.getD "password" ≠ "totp") :
    clipExecute c inp =
      if (c.findAttributes entry.attributes (inp.attrOpt.getD "password")).length > 1 then
        { exitCode := EXIT_FAILURE,
          errWrites := [Msg.ambiguousAttribute (inp.attrOpt.getD "password")
            (c.findAttributes entry.attributes (inp.attrOpt.getD "password"))],
          outWrites := [], clipWrites := [] }
      else
        match c.findAttributes entry.attributes (inp.attrOpt.getD "password") with
        | [k] => clipPhase c k (attrValue entry.attributes k) (timeoutSecondsOf inp)
        | _ =>
            { exitCode := EXIT_FAILURE, errWrites := [],
              outWrites := [Msg.attributeNotFound (inp.attrOpt.getD "password")],
              clipWrites := [] } := by
  simp [clipExecute, htime, hfind, htotp, hq]

/-- A run whose timeout is valid, whose entry resolves, whose options are not
in conflict, and which requests TOTP (flag set, or selected attribute equal
to `"totp"`) proceeds to the TOTP check and, when a TOTP is configured, to
the clipboard phase on the entry's TOTP code — with the confirmation still
naming the selected attribute. -/
theorem clipExecute_totpBranch (c : Collab) (inp : ClipInput) (entry : Entry)
    (htime : ¬(inp.timeout ≠ "" ∧ qstringToInt inp.timeout ≤ 0))
    (hfind : c.findEntryByPath inp.entryPath = some entry)
    (hnoconf : ¬(inp.attrOpt.isSome = true ∧ inp.totpSet = true))
    (hreq : inp.totpSet = true ∨ inp.attrOpt.getD "password" = "totp") :
    clipExecute c inp =
      if entry.hasTotp then
        clipPhase c (inp.attrOpt.getD "password") entry.totp (timeoutSecondsOf inp)
      else
        { exitCode := EXIT_FAILURE,
          errWrites := [Msg.noTotpConfigured inp.entryPath],
          outWrites := [], clipWrites := [] } := by
  rcases hreq with h | h
  · have hA : inp.attrOpt.isSome = false := by
      cases hA2 : inp.attrOpt.isSome
      · rfl
      · exact absurd ⟨hA2, h⟩ hnoconf
    simp [clipExecute, htime, hfind, h, hA]
  · simp [clipExecute, htime, hfind, hnoconf, h]

/-! ### Claim theorems -/

/-- C1 counterexample: with both `--attribute` and `--totp` set and an entry
path that does not exist, the command fails with `EntryNotFound`, not
`ConflictingOptions`: the entry lookup is performed before the
conflicting-options check. -/
theorem clip_C1_counterexample :
    clipExecute demoCollab
      { entryPath := "Root/Missing", timeout := "", quiet := false,
        attrOpt := some "user", totpSet := true } =
      { exitCode := EXIT_FAILURE, errWrites := [Msg.entryNotFound "Root/Missing"],
        outWrites := [], clipWrites := [] } ∧
    Msg.conflictingOptions ∉ (clipExecute demoCollab
      { entryPath := "Root/Missing", timeout := "", quiet := false,
        attrOpt := some "user", totpSet := true }).errWrites := by
  refine ⟨by decide, by decide⟩

/-- C1 (amended): with both `--attribute` and `--totp` set and a valid
timeout, the entry lookup happens first: when the entry path resolves, the
command fails with `ConflictingOptions` before any attribute resolution or
clipboard interaction; when it does not resolve, the command fails with
`EntryNotFound` instead. -/
theorem clip_C1 (c : Collab) (inp : ClipInput) (entry : Entry)
    (hboth : inp.attrOpt.isSome = true ∧ inp.totpSet = true)
    (htime : ¬(inp.timeout ≠ "" ∧ qstringToInt inp.timeout ≤ 0)) :
    (c.findEntryByPath inp.entryPath = some entry →
      clipExecute c inp =
        { exitCode := EXIT_FAILURE, errWrites := [Msg.conflictingOptions],
          outWrites := [], clipWrites := [] }) ∧
    (c.findEntryByPath inp.entryPath = none →
      clipExecute c inp =
        { exitCode := EXIT_FAILURE, errWrites := [Msg.entryNotFound inp.entryPath],
          outWrites := [], clipWrites := [] }) := by
  obtain ⟨h1, h2⟩ := hboth
  constructor
  · intro hf
    simp [clipExecute, htime, hf, h1, h2]
  · intro hf
    simp [clipExecute, htime, hf]

/-- Witness for C1: both options set, once with an existing entry, once with
a missing one. -/
theorem clip_C1_witness :
    ((some "user" : Option String).isSome = true ∧
      demoCollab.findEntryByPath "Root/Email" = some demoEntry ∧
      demoCollab.findEntryByPath "Root/Absent" = none) ∧
    clipExecute demoCollab
      { entryPath := "Root/Email", timeout := "", quiet := false,
        attrOpt := some "user", totpSet := true } =
      { exitCode := EXIT_FAILURE, errWrites := [Msg.conflictingOptions],
        outWrites := [], clipWrites := [] } ∧
    clipExecute demoCollab
      { entryPath := "Root/Absent", timeout := "", quiet := false,
        attrOpt := some "user", totpSet := true } =
      { exitCode := EXIT_FAILURE, errWrites := [Msg.entryNotFound "Root/Absent"],
        outWrites := [], clipWrites := [] } :=
  ⟨⟨rfl, by decide, by decide⟩,
   (clip_C1 demoCollab
      { entryPath := "Root/Email", timeout := "", quiet := false,
        attrOpt := some "user", totpSet := true }
      demoEntry ⟨rfl, rfl⟩ (by decide)).1 (by decide),
   (clip_C1 demoCollab
      { entryPath := "Root/Absent", timeout := "", quiet := false,
        attrOpt := some "user", totpSet := true }
      demoEntry ⟨rfl, rfl⟩ (by decide)).2 (by decide)⟩

/-- C2 counterexample: a successful countdown run with the quiet flag set, in
which nothing — in particular not the `Clipboard cleared!` confirmation —
reaches the terminal, because quiet redirects the whole normal output stream
to the null device. -/
theorem clip_C2_counterexample :
    (clipExecute demoCollab
      { entryPath := "Root/Email", timeout := "1", quiet := true,
        attrOpt := none, totpSet := false }).exitCode = EXIT_SUCCESS ∧
    Msg.clipboardCleared ∈ (clipExecute demoCollab
      { entryPath := "Root/Email", timeout := "1", quiet := true,
        attrOpt := none, totpSet := false }).outWrites ∧
    printedOut true (clipExecute demoCollab
      { entryPath := "Root/Email", timeout := "1", quiet := true,
        attrOpt := none, totpSet := false }) = [] ∧
    Msg.clipboardCleared ∉ printedOut true (clipExecute demoCollab
      { entryPath := "Root/Email", timeout := "1", quiet := true,
        attrOpt := none, totpSet := false }) := by
  refine ⟨by decide, by decide, by decide, by decide⟩

/-- C2 (amended): on every successful countdown run the `Clipboard cleared!`
confirmation is written to the normal output stream, but that stream is the
null device under quiet, so quiet suppresses the clearing message exactly as
it suppresses the earlier copy confirmation; only with quiet unset do the
messages reach the terminal. -/
theorem clip_C2 (c : Collab) (inp : ClipInput) (N : Int)
    (ht : inp.timeout ≠ "") (hN : qstringToInt inp.timeout = N) (hpos : 0 < N)
    (hs : (clipExecute c inp).exitCode = EXIT_SUCCESS) :
    Msg.clipboardCleared ∈ (clipExecute c inp).outWrites ∧
    (inp.quiet = true → printedOut inp.quiet (clipExecute c inp) = []) ∧
    (inp.quiet = false →
      printedOut inp.quiet (clipExecute c inp) = (clipExecute c inp).outWrites) := by
  obtain ⟨pre, hp, _, _⟩ := clipExecute_success_countdown c inp N ht hN hpos hs
  refine ⟨?_, ?_, ?_⟩
  · rw [hp]
    simp
  · intro h
    rw [h]
    rfl
  · intro h
    rw [h]
    rfl

/-- Witness for C2: a quiet countdown run with timeout `"1"` and a non-quiet
one. -/
theorem clip_C2_witness :
    (qstringToInt "1" = 1 ∧ (0 : Int) < 1 ∧
      (clipExecute demoCollab
        { entryPath := "Root/Email", timeout := "1", quiet := true,
          attrOpt := none, totpSet := false }).exitCode = EXIT_SUCCESS) ∧
    Msg.clipboardCleared ∈ (clipExecute demoCollab
      { entryPath := "Root/Email", timeout := "1", quiet := true,
        attrOpt := none, totpSet := false }).outWrites ∧
    printedOut true (clipExecute demoCollab
      { entryPath := "Root/Email", timeout := "1", quiet := true,
        attrOpt := none, totpSet := false }) = [] ∧
    printedOut false (clipExecute demoCollab
      { entryPath := "Root/Email", timeout := "1", quiet := false,
        attrOpt := none, totpSet := false }) =
      (clipExecute demoCollab
        { entryPath := "Root/Email", timeout := "1", quiet := false,
          attrOpt := none, totpSet := false }).outWrites :=
  ⟨⟨by decide, by decide, by decide⟩,
   (clip_C2 demoCollab
      { entryPath := "Root/Email", timeout := "1", quiet := true,
        attrOpt := none, totpSet := false } 1
      (by decide) (by decide) (by decide) (by decide)).1,
   (clip_C2 demoCollab
      { entryPath := "Root/Email", timeout := "1", quiet := true,
        attrOpt := none, totpSet := false } 1
      (by decide) (by decide) (by decide) (by decide)).2.1 rfl,
   (clip_C2 demoCollab
      { entryPath := "Root/Email", timeout := "1", quiet := false,
        attrOpt := none, totpSet := false } 1
      (by decide) (by decide) (by decide) (by decide)).2.2 rfl⟩

/-- C3 counterexample: TOTP requested via the `--totp` flag alone (so the
`--attribute` option keeps its default `"password"`), against an entry with
a TOTP: the clipboard correctly receives the TOTP code, but the confirmation
message names the attribute `"password"`, not `"totp"`. -/
theorem clip_C3_counterexample :
    (clipExecute demoCollab
      { entryPath := "Root/Email", timeout := "", quiet := false,
        attrOpt := none, totpSet := true }).exitCode = EXIT_SUCCESS ∧
    (clipExecute demoCollab
      { entryPath := "Root/Email", timeout := "", quiet := false,
        attrOpt := none, totpSet := true }).clipWrites.head? =
      some demoEntry.totp ∧
    (clipExecute demoCollab
      { entryPath := "Root/Email", timeout := "", quiet := false,
        attrOpt := none, totpSet := true }).outWrites =
      [Msg.copiedConfirmation "password"] ∧
    Msg.copiedConfirmation "totp" ∉ (clipExecute demoCollab
      { entryPath := "Root/Email", timeout := "", quiet := false,
        attrOpt := none, totpSet := true }).outWrites := by
  refine ⟨by decide, by decide, by decide, by decide⟩

/-- C3 (amended): when TOTP is requested (flag, or selected attribute equal
to `"totp"`), an entry without TOTP fails with `NoTotpConfigured`; otherwise
the clipboard receives the entry's current TOTP code, and the confirmation
names the selected attribute value — the `--attribute` value when given
(hence `"totp"` for `-a totp`), and the default `"password"` when TOTP was
requested via the flag alone. -/
theorem clip_C3 (c : Collab) (inp : ClipInput) (entry : Entry)
    (htime : ¬(inp.timeout ≠ "" ∧ qstringToInt inp.timeout ≤ 0))
    (hfind : c.findEntryByPath inp.entryPath = some entry)
    (hnoconf : ¬(inp.attrOpt.isSome = true ∧ inp.totpSet = true))
    (hreq : inp.totpSet = true ∨ inp.attrOpt.getD "password" = "totp") :
    (entry.hasTotp = false →
      clipExecute c inp =
        { exitCode := EXIT_FAILURE,
          errWrites := [Msg.noTotpConfigured inp.entryPath],
          outWrites := [], clipWrites := [] }) ∧
    (entry.hasTotp = true →
      (clipExecute c inp).clipWrites.head? = some entry.totp ∧
      (c.clipExit entry.totp = EXIT_SUCCESS →
        Msg.copiedConfirmation (inp.attrOpt.getD "password") ∈
          (clipExecute c inp).outWrites)) := by
  have h := clipExecute_totpBranch c inp entry htime hfind hnoconf hreq
  constructor
  · intro hT
    rw [hT] at h
    simpa using h
  · intro hT
    rw [hT, if_pos rfl] at h
    constructor
    · rw [h]
      exact clipPhase_head c (inp.attrOpt.getD "password") entry.totp
        (timeoutSecondsOf inp)
    · intro hclip
      by_cases hts : timeoutSecondsOf inp = 0
      · rw [hts] at h
        rw [h, clipPhase_zero c (inp.attrOpt.getD "password") entry.totp hclip]
        simp
      · rw [h, clipPhase_pos c (inp.attrOpt.getD "password") entry.totp
          (timeoutSecondsOf inp) hclip hts]
        simp

/-- Witness for C3: the `--totp` flag against an entry without TOTP and
against one with TOTP configured. -/
theorem clip_C3_witness :
    (demoCollabNoTotp.findEntryByPath "Root/Plain" = some demoEntryNoTotp ∧
      demoEntryNoTotp.hasTotp = false ∧
      demoCollab.findEntryByPath "Root/Email" = some demoEntry ∧
      demoEntry.hasTotp = true ∧
      demoCollab.clipExit demoEntry.totp = EXIT_SUCCESS) ∧
    clipExecute demoCollabNoTotp
      { entryPath := "Root/Plain", timeout := "", quiet := false,
        attrOpt := none, totpSet := true } =
      { exitCode := EXIT_FAILURE, errWrites := [Msg.noTotpConfigured "Root/Plain"],
        outWrites := [], clipWrites := [] } ∧
    (clipExecute demoCollab
      { entryPath := "Root/Email", timeout := "", quiet := false,
        attrOpt := none, totpSet := true }).clipWrites.head? =
      some demoEntry.totp ∧
    Msg.copiedConfirmation "password" ∈ (clipExecute demoCollab
      { entryPath := "Root/Email", timeout := "", quiet := false,
        attrOpt := none, totpSet := true }).outWrites :=
  ⟨⟨by decide, by decide, by decide, by decide, by decide⟩,
   (clip_C3 demoCollabNoTotp
      { entryPath := "Root/Plain", timeout := "", quiet := false,
        attrOpt := none, totpSet := true }
      demoEntryNoTotp (by decide) (by decide) (by decide) (Or.inl rfl)).1
      (by decide),
   ((clip_C3 demoCollab
      { entryPath := "Root/Email", timeout := "", quiet := false,
        attrOpt := none, totpSet := true }
      demoEntry (by decide) (by decide) (by decide) (Or.inl rfl)).2
      (by decide)).1,
   ((clip_C3 demoCollab
      { entryPath := "Root/Email", timeout := "", quiet := false,
        attrOpt := none, totpSet := true }
      demoEntry (by decide) (by decide) (by decide) (Or.inl rfl)).2
      (by decide)).2 (by decide)⟩

/-- C4: for every successful invocation whose timeout string parses to
`N > 0`, the normal output ends with the `Clipboard cleared!` message, the
messages before it contain exactly the countdown lines `N, N-1, …, 1`, and
the last clipboard write (the final clipboard content) is the empty
string. -/
theorem clip_C4 (c : Collab) (inp : ClipInput) (N : Int)
    (ht : inp.timeout ≠ "") (hN : qstringToInt inp.timeout = N) (hpos : 0 < N)
    (hs : (clipExecute c inp).exitCode = EXIT_SUCCESS) :
    ∃ pre, (clipExecute c inp).outWrites = pre ++ [Msg.clipboardCleared] ∧
      countdownNums pre = descList N.toNat ∧
      (clipExecute c inp).clipWrites.getLast? = some "" :=
  clipExecute_success_countdown c inp N ht hN hpos hs

/-- Witness for C4: a dedicated countdown run with timeout `"2"`. -/
theorem clip_C4_witness :
    (("2" : String) ≠ "" ∧ qstringToInt "2" = 2 ∧ (0 : Int) < 2 ∧
      (clipExecute demoCollab
        { entryPath := "Root/Email", timeout := "2", quiet := false,
          attrOpt := none, totpSet := false }).exitCode = EXIT_SUCCESS) ∧
    (∃ pre,
      (clipExecute demoCollab
        { entryPath := "Root/Email", timeout := "2", quiet := false,
          attrOpt := none, totpSet := false }).outWrites =
          pre ++ [Msg.clipboardCleared] ∧
      countdownNums pre = descList (2 : Int).toNat ∧
      (clipExecute demoCollab
        { entryPath := "Root/Email", timeout := "2", quiet := false,
          attrOpt := none, totpSet := false }).clipWrites.getLast? = some "") :=
  ⟨⟨by decide, by decide, by decide, by decide⟩,
    clip_C4 demoCollab
      { entryPath := "Root/Email", timeout := "2", quiet := false,
        attrOpt := none, totpSet := false } 2
      (by decide) (by decide) (by decide) (by decide)⟩

/-- C7: an empty timeout string yields no countdown and an immediate success
return after a successful clipboard write; the timeout strings `"0"`, `"-5"`
and `"abc"` are rejected as `InvalidTimeout` independently of every
collaborator (so before any entry lookup or clipboard interaction); any
non-empty timeout string with a positive parse is used as the countdown
duration. -/
theorem clip_C7 (c : Collab) (inp : ClipInput) :
    (inp.timeout = "" →
      countdownNums (clipExecute c inp).outWrites = [] ∧
      Msg.clipboardCleared ∉ (clipExecute c inp).outWrites ∧
      (clipExecute c inp).clipWrites.length ≤ 1 ∧
      (∀ v, (clipExecute c inp).clipWrites = [v] → c.clipExit v = EXIT_SUCCESS →
        (clipExecute c inp).exitCode = EXIT_SUCCESS)) ∧
    (∀ s, s = "0" ∨ s = "-5" ∨ s = "abc" → inp.timeout = s →
      clipExecute c inp =
        { exitCode := EXIT_FAILURE, errWrites := [Msg.invalidTimeout s],
          outWrites := [], clipWrites := [] }) ∧
    (inp.timeout ≠ "" → 0 < qstringToInt inp.timeout →
      (clipExecute c inp).exitCode = EXIT_SUCCESS →
      ∃ pre, (clipExecute c inp).outWrites = pre ++ [Msg.clipboardCleared] ∧
        countdownNums pre = descList (qstringToInt inp.timeout).toNat) := by
  refine ⟨?_, ?_, ?_⟩
  · intro h0
    have hts : timeoutSecondsOf inp = 0 := by simp [timeoutSecondsOf, h0]
    rcases clipExecute_shape c inp with ⟨a, v, heq⟩ | ⟨hf, hcw, hout⟩
    · rw [hts] at heq
      by_cases hc : c.clipExit v = EXIT_SUCCESS
      · rw [heq, clipPhase_zero c a v hc]
        refine ⟨rfl, by simp, by simp, ?_⟩
        intro w hw _
        rfl
      · rw [heq, clipPhase_fail c a v 0 hc]
        refine ⟨rfl, by simp, by simp, ?_⟩
        intro w hw hcw2
        have hvw : v = w := by simpa using hw
        exact hvw ▸ hcw2
    · rcases hout with hout | ⟨a, hout⟩ <;>
        rw [hcw, hout] <;>
        exact ⟨by simp, by simp, by simp, fun v hv => absurd hv (by simp)⟩
  · intro s hs heq
    have h1 : s ≠ "" := by rcases hs with rfl | rfl | rfl <;> decide
    have h2 : qstringToInt s ≤ 0 := by rcases hs with rfl | rfl | rfl <;> decide
    have h1' : inp.timeout ≠ "" := by rw [heq]; exact h1
    have h2' : qstringToInt inp.timeout ≤ 0 := by rw [heq]; exact h2
    unfold clipExecute
    rw [if_pos ⟨h1', h2'⟩, heq]
  · intro h1 h2 hs
    obtain ⟨pre, hp1, hp2, _⟩ :=
      clipExecute_success_countdown c inp _ h1 rfl h2 hs
    exact ⟨pre, hp1, hp2⟩

/-- Witness for C7: an empty timeout, the timeout `"abc"`, and the timeout
`"2"`, all against the concrete collaborators. -/
theorem clip_C7_witness :
    (countdownNums (clipExecute demoCollab
        { entryPath := "Root/Email", timeout := "", quiet := false,
          attrOpt := none, totpSet := false }).outWrites = [] ∧
      Msg.clipboardCleared ∉ (clipExecute demoCollab
        { entryPath := "Root/Email", timeout := "", quiet := false,
          attrOpt := none, totpSet := false }).outWrites ∧
      (clipExecute demoCollab
        { entryPath := "Root/Email", timeout := "", quiet := false,
          attrOpt := none, totpSet := false }).clipWrites.length ≤ 1 ∧
      (clipExecute demoCollab
        { entryPath := "Root/Email", timeout := "", quiet := false,
          attrOpt := none, totpSet := false }).exitCode = EXIT_SUCCESS) ∧
    clipExecute demoCollab
      { entryPath := "Root/Email", timeout := "abc", quiet := false,
        attrOpt := none, totpSet := false } =
      { exitCode := EXIT_FAILURE, errWrites := [Msg.invalidTimeout "abc"],
        outWrites := [], clipWrites := [] } ∧
    (0 < qstringToInt "2" ∧
      ∃ pre, (clipExecute demoCollab
        { entryPath := "Root/Email", timeout := "2", quiet := false,
          attrOpt := none, totpSet := false }).outWrites =
          pre ++ [Msg.clipboardCleared] ∧
        countdownNums pre = descList (qstringToInt "2").toNat) :=
  ⟨⟨((clip_C7 demoCollab
      { entryPath := "Root/Email", timeout := "", quiet := false,
        attrOpt := none, totpSet := false }).1 rfl).1,
    ((clip_C7 demoCollab
      { entryPath := "Root/Email", timeout := "", quiet := false,
        attrOpt := none, totpSet := false }).1 rfl).2.1,
    ((clip_C7 demoCollab
      { entryPath := "Root/Email", timeout := "", quiet := false,
        attrOpt := none, totpSet := false }).1 rfl).2.2.1,
    ((clip_C7 demoCollab
      { entryPath := "Root/Email", timeout := "", quiet := false,
        attrOpt := none, totpSet := false }).1 rfl).2.2.2 "secret123"
      (by decide) (by decide)⟩,
   (clip_C7 demoCollab
      { entryPath := "Root/Email", timeout := "abc", quiet := false,
        attrOpt := none, totpSet := false }).2.1 "abc"
      (Or.inr (Or.inr rfl)) rfl,
   by decide,
   (clip_C7 demoCollab
      { entryPath := "Root/Email", timeout := "2", quiet := false,
        attrOpt := none, totpSet := false }).2.2 (by decide) (by decide)
      (by decide)⟩

/-- C8: whenever the clipboard write collaborator reports failure on the
value being copied, the command returns that exit code unchanged, writes
nothing to either stream, and performs no further clipboard action. -/
theorem clip_C8 (c : Collab) (inp : ClipInput) (v : String)
    (hw : (clipExecute c inp).clipWrites.head? = some v)
    (hfail : c.clipExit v ≠ EXIT_SUCCESS) :
    (clipExecute c inp).exitCode = c.clipExit v ∧
    (clipExecute c inp).errWrites = [] ∧
    (clipExecute c inp).outWrites = [] ∧
    (clipExecute c inp).clipWrites = [v] := by
  rcases clipExecute_shape c inp with ⟨a, w, heq⟩ | ⟨hf, hcw, _⟩
  · have hv : v = w := by
      rw [heq, clipPhase_head c a w (timeoutSecondsOf inp)] at hw
      exact (Option.some_inj.mp hw).symm
    subst hv
    rw [heq, clipPhase_fail c a v (timeoutSecondsOf inp) hfail]
    exact ⟨rfl, rfl, rfl, rfl⟩
  · rw [hcw] at hw
    simp at hw

/-- Witness for C8: a collaborator whose clipboard write fails with code 9. -/
theorem clip_C8_witness :
    ((clipExecute demoCollabClipFail
        { entryPath := "Root/Email", timeout := "", quiet := false,
          attrOpt := none, totpSet := false }).clipWrites.head? =
        some "secret123" ∧
      demoCollabClipFail.clipExit "secret123" ≠ EXIT_SUCCESS) ∧
    ((clipExecute demoCollabClipFail
        { entryPath := "Root/Email", timeout := "", quiet := false,
          attrOpt := none, totpSet := false }).exitCode =
        demoCollabClipFail.clipExit "secret123" ∧
      (clipExecute demoCollabClipFail
        { entryPath := "Root/Email", timeout := "", quiet := false,
          attrOpt := none, totpSet := false }).errWrites = [] ∧
      (clipExecute demoCollabClipFail
        { entryPath := "Root/Email", timeout := "", quiet := false,
          attrOpt := none, totpSet := false }).outWrites = [] ∧
      (clipExecute demoCollabClipFail
        { entryPath := "Root/Email", timeout := "", quiet := false,
          attrOpt := none, totpSet := false }).clipWrites = ["secret123"]) :=
  ⟨⟨by decide, by decide⟩,
    clip_C8 demoCollabClipFail
      { entryPath := "Root/Email", timeout := "", quiet := false,
        attrOpt := none, totpSet := false } "secret123"
      (by decide) (by decide)⟩

/-- C9: the whole observable result — exit code, error-stream writes, normal
stream writes, clipboard writes — is independent of the quiet flag; quiet
only decides whether the normal stream reaches the terminal (DEVNULL versus
STDOUT), so the error stream is identical across the two runs and all
failure diagnostics stay visible under quiet. -/
theorem clip_C9 (c : Collab) (inp : ClipInput) (b : Bool) :
    clipExecute c { inp with quiet := b } = clipExecute c inp ∧
    (clipExecute c { inp with quiet := b }).errWrites =
      (clipExecute c inp).errWrites ∧
    printedOut true (clipExecute c inp) = [] ∧
    printedOut false (clipExecute c inp) = (clipExecute c inp).outWrites := by
  have h : clipExecute c { inp with quiet := b } = clipExecute c inp := by
    cases inp
    rfl
  exact ⟨h, by rw [h], rfl, rfl⟩

/-- C10: any non-empty timeout string that is not entirely a valid decimal
representation of a signed 32-bit integer parses to 0 and is rejected as
`InvalidTimeout`, independently of every collaborator. -/
theorem clip_C10 (c : Collab) (inp : ClipInput)
    (hne : inp.timeout ≠ "") (hinv : isValidInt32Rep inp.timeout = false) :
    qstringToInt inp.timeout = 0 ∧
    clipExecute c inp =
      { exitCode := EXIT_FAILURE, errWrites := [Msg.invalidTimeout inp.timeout],
        outWrites := [], clipWrites := [] } := by
  have h0 : qstringToInt inp.timeout = 0 := by
    unfold qstringToInt
    unfold isValidInt32Rep at hinv
    rcases hp : parseDecInt? inp.timeout with _ | v
    · rfl
    · rw [hp] at hinv
      simp only [decide_eq_false_iff_not] at hinv
      exact if_neg hinv
  refine ⟨h0, ?_⟩
  unfold clipExecute
  rw [if_pos ⟨hne, by omega⟩]

/-- C5: when TOTP is not requested and the attribute query matches exactly
one key `k` holding value `v`, the command succeeds, the clipboard receives
`v`, the confirmation names `k`, and no other key is named by any
confirmation. -/
theorem clip_C5 (c : Collab) (inp : ClipInput) (entry : Entry) (k v : String)
    (htime : ¬(inp.timeout ≠ "" ∧ qstringToInt inp.timeout ≤ 0))
    (hfind : c.findEntryByPath inp.entryPath = some entry)
    (htotp : inp.totpSet = false)
    (hq : inp.attrOpt.getD "password" ≠ "totp")
    (hmatch : c.findAttributes entry.attributes (inp.attrOpt.getD "password") = [k])
    (hkv : entry.attributes.lookup k = some v)
    (hclip : c.clipExit v = EXIT_SUCCESS) :
    (clipExecute c inp).exitCode = EXIT_SUCCESS ∧
    (clipExecute c inp).clipWrites.head? = some v ∧
    Msg.copiedConfirmation k ∈ (clipExecute c inp).outWrites ∧
    (∀ a, Msg.copiedConfirmation a ∈ (clipExecute c inp).outWrites → a = k) := by
  have h := clipExecute_attrBranch c inp entry htime hfind htotp hq
  rw [hmatch] at h
  norm_num at h
  have hav : attrValue entry.attributes k = v := by simp [attrValue, hkv]
  rw [hav] at h
  by_cases hts : timeoutSecondsOf inp = 0
  · rw [hts] at h
    rw [h, clipPhase_zero c k v hclip]
    refine ⟨rfl, rfl, by simp, ?_⟩
    intro a ha
    simp at ha
    exact ha
  · rw [h, clipPhase_pos c k v _ hclip hts]
    refine ⟨rfl, rfl, by simp, ?_⟩
    intro a ha
    rcases List.mem_cons.mp ha with ha | ha
    · exact (Msg.copiedConfirmation.injEq a k).mp ha
    · rcases List.mem_append.mp ha with ha | ha
      · exact absurd ha (countdownLoop_no_copied _ _ a)
      · simp at ha

/-- Witness for C5: query `"user"` matches exactly the key `"user"` with
value `"bob"`. -/
theorem clip_C5_witness :
    (¬(("" : String) ≠ "" ∧ qstringToInt "" ≤ 0) ∧
      demoCollab.findEntryByPath "Root/Email" = some demoEntry ∧
      demoCollab.findAttributes demoEntry.attributes "user" = ["user"] ∧
      demoEntry.attributes.lookup "user" = some "bob" ∧
      demoCollab.clipExit "bob" = EXIT_SUCCESS) ∧
    ((clipExecute demoCollab
        { entryPath := "Root/Email", timeout := "", quiet := false,
          attrOpt := some "user", totpSet := false }).exitCode = EXIT_SUCCESS ∧
      (clipExecute demoCollab
        { entryPath := "Root/Email", timeout := "", quiet := false,
          attrOpt := some "user", totpSet := false }).clipWrites.head? =
        some "bob" ∧
      Msg.copiedConfirmation "user" ∈ (clipExecute demoCollab
        { entryPath := "Root/Email", timeout := "", quiet := false,
          attrOpt := some "user", totpSet := false }).outWrites ∧
      (∀ a, Msg.copiedConfirmation a ∈ (clipExecute demoCollab
        { entryPath := "Root/Email", timeout := "", quiet := false,
          attrOpt := some "user", totpSet := false }).outWrites → a = "user")) :=
  ⟨⟨by decide, by decide, by decide, by decide, by decide⟩,
    clip_C5 demoCollab
      { entryPath := "Root/Email", timeout := "", quiet := false,
        attrOpt := some "user", totpSet := false }
      demoEntry "user" "bob"
      (by decide) (by decide) (by decide) (by decide) (by decide) (by decide)
      (by decide)⟩

/-- C6: when TOTP is not requested, a query with zero matching keys yields
the `AttributeNotFound` message on the normal output stream with
`EXIT_FAILURE` and no clipboard write, while a query with more than one
matching key yields the `Ambiguous` message on the error stream carrying the
matched keys exactly as the matching collaborator returned them. -/
theorem clip_C6 (c : Collab) (inp : ClipInput) (entry : Entry)
    (htime : ¬(inp.timeout ≠ "" ∧ qstringToInt inp.timeout ≤ 0))
    (hfind : c.findEntryByPath inp.entryPath = some entry)
    (htotp : inp.totpSet = false)
    (hq : inp.attrOpt.getD "password" ≠ "totp") :
    (c.findAttributes entry.attributes (inp.attrOpt.getD "password") = [] →
      clipExecute c inp =
        { exitCode := EXIT_FAILURE, errWrites := [],
          outWrites := [Msg.attributeNotFound (inp.attrOpt.getD "password")],
          clipWrites := [] }) ∧
    (∀ ks, c.findAttributes entry.attributes (inp.attrOpt.getD "password") = ks →
      ks.length > 1 →
      clipExecute c inp =
        { exitCode := EXIT_FAILURE,
          errWrites := [Msg.ambiguousAttribute (inp.attrOpt.getD "password") ks],
          outWrites := [], clipWrites := [] }) := by
  have h := clipExecute_attrBranch c inp entry htime hfind htotp hq
  constructor
  · intro hz
    rw [hz] at h
    simpa using h
  · intro ks hks hlen
    rw [hks] at h
    rw [h, if_pos hlen]

/-- Witness for C6: the fuzzy matcher returns no key for `"zzz"` and the two
keys `["password", "passphrase"]` for `"pa"`, reported in that order. -/
theorem clip_C6_witness :
    (¬(("" : String) ≠ "" ∧ qstringToInt "" ≤ 0) ∧
      demoCollabFuzzy.findEntryByPath "Root/Email" = some demoEntry ∧
      demoCollabFuzzy.findAttributes demoEntry.attributes "zzz" = [] ∧
      demoCollabFuzzy.findAttributes demoEntry.attributes "pa" =
        ["password", "passphrase"]) ∧
    clipExecute demoCollabFuzzy
      { entryPath := "Root/Email", timeout := "", quiet := false,
        attrOpt := some "zzz", totpSet := false } =
      { exitCode := EXIT_FAILURE, errWrites := [],
        outWrites := [Msg.attributeNotFound "zzz"], clipWrites := [] } ∧
    clipExecute demoCollabFuzzy
      { entryPath := "Root/Email", timeout := "", quiet := false,
        attrOpt := some "pa", totpSet := false } =
      { exitCode := EXIT_FAILURE,
        errWrites := [Msg.ambiguousAttribute "pa" ["password", "passphrase"]],
        outWrites := [], clipWrites := [] } :=
  ⟨⟨by decide, by decide, by decide, by decide⟩,
    (clip_C6 demoCollabFuzzy
      { entryPath := "Root/Email", timeout := "", quiet := false,
        attrOpt := some "zzz", totpSet := false }
      demoEntry (by decide) (by decide) (by decide) (by decide)).1 (by decide),
    (clip_C6 demoCollabFuzzy
      { entryPath := "Root/Email", timeout := "", quiet := false,
        attrOpt := some "pa", totpSet := false }
      demoEntry (by decide) (by decide) (by decide) (by decide)).2
      ["password", "passphrase"] (by decide) (by decide)⟩

/-- Witness for C10: the timeout string `"3x"`. -/
theorem clip_C10_witness :
    (("3x" : String) ≠ "" ∧ isValidInt32Rep "3x" = false) ∧
    (qstringToInt "3x" = 0 ∧
      clipExecute demoCollab
        { entryPath := "Root/Email", timeout := "3x", quiet := false,
          attrOpt := none, totpSet := false } =
        { exitCode := EXIT_FAILURE, errWrites := [Msg.invalidTimeout "3x"],
          outWrites := [], clipWrites := [] }) :=
  ⟨⟨by decide, by decide⟩,
    clip_C10 demoCollab
      { entryPath := "Root/Email", timeout := "3x", quiet := false,
        attrOpt := none, totpSet := false }
      (by decide) (by decide)⟩

end Clip
